import Mathlib

/-!
# The Sui inference relay (`main.go`)

A shallow embedding of the two HTTP handlers of `main.go`, `helloHandler` and
`runInference`, together with the parts of the Go standard library and of the
Sui SDK they touch.

* The request body is represented by what `json.NewDecoder(r.Body).Decode`
  scans: either no well-formed JSON value, or the first JSON value of the
  stream together with the bytes after it, which `Decode` does not read.
* The SDK (`signer.NewSignertWithMnemonic`, `cli.MoveCall`,
  `cli.SignAndExecuteTransactionBlock`) is a parameter: three operations over
  an arbitrary world state, each of which may fail with an error text.
* A handler run yields the HTTP response together with the list of SDK
  operations performed, in order, with their arguments.
-/

namespace SuiSdk

/-! ## `net/http` -/

/-- Go's `http.MethodGet`. -/
def MethodGet : String := "GET"

/-- Go's `http.MethodPost`. -/
def MethodPost : String := "POST"

/-- Go's `http.StatusOK`. -/
def StatusOK : Nat := 200

/-- Go's `http.StatusBadRequest`. -/
def StatusBadRequest : Nat := 400

/-- Go's `http.StatusMethodNotAllowed`. -/
def StatusMethodNotAllowed : Nat := 405

/-- Go's `http.StatusInternalServerError`. -/
def StatusInternalServerError : Nat := 500

/-- What a handler has written to its `http.ResponseWriter` when it returns:
the status, the headers it set (in the order they were set) and the body. -/
structure HttpResponse where
  Status : Nat
  Header : List (String × String)
  Body : String
deriving DecidableEq, Repr

/-- Go's `http.Error(w, msg, code)`: sets the plain-text content type and the
`nosniff` option, writes the status and then `msg` followed by a newline
(`fmt.Fprintln`). -/
def httpError (msg : String) (code : Nat) : HttpResponse :=
  { Status := code
    Header := [("Content-Type", "text/plain; charset=utf-8"),
               ("X-Content-Type-Options", "nosniff")]
    Body := msg ++ "\n" }

/-! ## `encoding/json`: values and decoding into `RunInferenceReq` -/

/-- A JSON value. A number keeps its literal text. -/
inductive JSON where
  | null
  | bool (b : Bool)
  | number (literal : String)
  | string (s : String)
  | array (elems : List JSON)
  | object (members : List (String × JSON))

mutual
/-- How deeply arrays and objects are nested in a value: 0 for a scalar, 1 for
an array or object of scalars, and so on. -/
def JSON.depth : JSON → Nat
  | .array elems => depthOfElems elems + 1
  | .object members => depthOfMembers members + 1
  | _ => 0
/-- The greatest depth among the elements of an array. -/
def depthOfElems : List JSON → Nat
  | [] => 0
  | v :: vs => max v.depth (depthOfElems vs)
/-- The greatest depth among the member values of an object. -/
def depthOfMembers : List (String × JSON) → Nat
  | [] => 0
  | m :: ms => max m.2.depth (depthOfMembers ms)
end

/-- The scanner's `maxNestingDepth`: a value nested deeper is reported as an
error. -/
def maxNestingDepth : Nat := 10000

/-- The request body as the JSON decoder sees it: `malformed` when the stream
does not start with a well-formed JSON value (an error in the first value, or
an empty body), otherwise the first value `v` of the stream and the text
`rest` that follows it. `Decode` stops reading at the end of the first value,
so `rest` may be anything, also text that makes the body as a whole invalid
JSON. -/
inductive RequestBody where
  | malformed
  | json (v : JSON) (rest : String)

/-- The part of `*http.Request` the handlers read. -/
structure Request where
  Method : String
  Body : RequestBody

/-- A Go `[]string`. `elems` are its elements, `none` for the nil slice.
`spare` are the slots of its backing array after the elements, as far as they
still hold earlier values; every slot beyond them holds the empty string. -/
structure StringSlice where
  elems : Option (List String)
  spare : List String
deriving DecidableEq, Repr

/-- The nil slice. -/
def StringSlice.nil : StringSlice :=
  { elems := none, spare := [] }

/-- The slots of the backing array: the elements, then the spare slots. -/
def StringSlice.slots (v : StringSlice) : List String :=
  v.elems.getD [] ++ v.spare

/-- The struct `RunInferenceReq`. -/
structure RunInferenceReq where
  In1 : StringSlice
  In2 : StringSlice
  In3 : String
deriving DecidableEq, Repr

/-- The two ways `Decode` fails. -/
inductive DecodeError where
  | syntaxError
  | unmarshalTypeError
deriving DecidableEq, Repr

/-- The ASCII lower-case form of a character. -/
def asciiLower (c : Char) : Char :=
  if 65 ≤ c.toNat ∧ c.toNat ≤ 90 then Char.ofNat (c.toNat + 32) else c

/-- Object keys are matched to struct field names exactly or, failing that,
case-insensitively. The names `in1`, `in2`, `in3` have no case variants
outside ASCII, so ASCII folding decides the match. -/
def keyMatches (key : String) (name : List Char) : Bool :=
  key.data.map asciiLower == name

/-- Storing a JSON value into a Go `string`: a JSON string is stored, `null`
has no effect, anything else is a type mismatch that leaves the target as it
was. The flag reports the mismatch. -/
def storeString (old : String) : JSON → String × Bool
  | .string s => (s, false)
  | .null => (old, false)
  | _ => (old, true)

/-- Storing the elements of a JSON array into the slots of a backing array,
one after the other: element `i` is stored into slot `i`, which holds the
empty string when the backing array does not reach that far. A `null`
element leaves its slot as it was. -/
def storeElems (slots : List String) : List JSON → List String × Bool
  | [] => ([], false)
  | e :: es =>
      let r := storeString (slots.headD "") e
      let rest := storeElems slots.tail es
      (r.1 :: rest.1, r.2 || rest.2)

/-- Storing a JSON value into a Go `[]string`: `null` sets the nil slice; an
empty array sets a new empty slice; any other array is stored element by
element into the backing array the slice already has, the slice taking the
length of the array and the slots after it keeping their values; anything
else is a type mismatch that leaves the target as it was. -/
def storeStringSlice (old : StringSlice) : JSON → StringSlice × Bool
  | .null => (.nil, false)
  | .array [] => ({ elems := some [], spare := [] }, false)
  | .array (e :: es) =>
      let r := storeElems old.slots (e :: es)
      ({ elems := some r.1, spare := old.slots.drop (e :: es).length }, r.2)
  | _ => (old, true)

/-- One member of the top-level object: the value is stored in the field its
key names; a member with any other key is skipped. A type mismatch is
remembered and decoding goes on. -/
def storeMember (st : RunInferenceReq × Bool) (m : String × JSON) : RunInferenceReq × Bool :=
  if keyMatches m.1 ['i', 'n', '1'] then
    let r := storeStringSlice st.1.In1 m.2
    ({ st.1 with In1 := r.1 }, st.2 || r.2)
  else if keyMatches m.1 ['i', 'n', '2'] then
    let r := storeStringSlice st.1.In2 m.2
    ({ st.1 with In2 := r.1 }, st.2 || r.2)
  else if keyMatches m.1 ['i', 'n', '3'] then
    let r := storeString st.1.In3 m.2
    ({ st.1 with In3 := r.1 }, st.2 || r.2)
  else st

/-- `var reqBody RunInferenceReq`: the zero value. -/
def zeroRunInferenceReq : RunInferenceReq :=
  { In1 := .nil, In2 := .nil, In3 := "" }

/-- Unmarshalling a JSON value into a zero `RunInferenceReq`: `null` has no
effect, an object is stored member by member, any other value is a type
mismatch. A remembered mismatch is reported at the end. -/
def unmarshal : JSON → Except DecodeError RunInferenceReq
  | .null => .ok zeroRunInferenceReq
  | .object members =>
      let st := members.foldl storeMember (zeroRunInferenceReq, false)
      if st.2 then .error .unmarshalTypeError else .ok st.1
  | _ => .error .unmarshalTypeError

/-- The call `json.NewDecoder(r.Body).Decode(&reqBody)`: the first value of
the stream is scanned, which fails when it is malformed or nested too deeply,
and then unmarshalled; what follows the value is not read. -/
def Decode : RequestBody → Except DecodeError RunInferenceReq
  | .malformed => .error .syntaxError
  | .json v _ => if maxNestingDepth < v.depth then .error .syntaxError else unmarshal v

/-! ## `encoding/json`: encoding of the response structs -/

/-- A hexadecimal digit, lower case. -/
def hexDigit (n : Nat) : Char :=
  "0123456789abcdef".data.getD n '0'

/-- The characters the encoder writes unchanged inside a string when HTML
escaping is on (the default of `json.Encoder`): everything except the quote,
the backslash, `<`, `>`, `&`, the control characters below the space, and the
two Unicode line separators. -/
def htmlSafe (c : Char) : Bool :=
  32 ≤ c.toNat && !(c == '"' || c == '\\' || c == '<' || c == '>' || c == '&'
    || c.toNat == 0x2028 || c.toNat == 0x2029)

/-- The escape sequence of a character that is not written unchanged. -/
def escapeChar (c : Char) : List Char :=
  if c == '\\' then ['\\', '\\']
  else if c == '"' then ['\\', '"']
  else if c == '\n' then ['\\', 'n']
  else if c == '\r' then ['\\', 'r']
  else if c == '\t' then ['\\', 't']
  else if c.toNat == 8 then ['\\', 'b']
  else if c.toNat == 12 then ['\\', 'f']
  else ['\\', 'u', hexDigit (c.toNat / 4096 % 16), hexDigit (c.toNat / 256 % 16),
        hexDigit (c.toNat / 16 % 16), hexDigit (c.toNat % 16)]

/-- The JSON encoding of a Go string. -/
def encodeString (s : String) : String :=
  ⟨'"' :: (s.data.flatMap fun c => if htmlSafe c then [c] else escapeChar c) ++ ['"']⟩

/-- The struct `Response`. -/
structure Response where
  Message : String
deriving DecidableEq, Repr

/-- The struct `ResponseBody`, over the type of the SDK result placed in
`Data`. `Data` is an `interface{}` with `omitempty`: `none` is the nil
interface. -/
structure ResponseBody (Res : Type) where
  Message : String
  Data : Option Res
  Error : String

/-- What `json.NewEncoder(w).Encode` writes for a `Response`: the object
followed by a newline. -/
def encodeResponse (r : Response) : String :=
  "\x7b\"message\":" ++ encodeString r.Message ++ "\x7d\n"

/-- What `json.NewEncoder(w).Encode` writes for a `ResponseBody`: the object
followed by a newline. `data` is left out when `Data` is nil, `error` when
`Error` is empty. `marshal` is the encoder's rendering of the SDK result. -/
def encodeResponseBody {Res : Type} (marshal : Res → String) (r : ResponseBody Res) : String :=
  "\x7b\"message\":" ++ encodeString r.Message
    ++ (match r.Data with
        | some d => ",\"data\":" ++ marshal d
        | none => "")
    ++ (if r.Error = "" then "" else ",\"error\":" ++ encodeString r.Error)
    ++ "\x7d\n"

/-! ## The Sui SDK -/

/-- The SDK's `signer.Signer`: the account derived from a mnemonic. Keys are
byte strings. -/
structure Signer where
  PriKey : List Nat
  PubKey : List Nat
  Address : String
deriving DecidableEq, Repr

/-- An element of a Go `[]interface{}` argument list as the handler builds
it: a `[]string` or a `string`. -/
inductive Argument where
  | strings (xs : StringSlice)
  | text (s : String)
deriving DecidableEq, Repr

/-- The SDK's `models.MoveCallRequest`. `Gas` is a `*string`. -/
structure MoveCallRequest where
  Signer : String
  PackageObjectId : String
  Module : String
  Function : String
  TypeArguments : List Argument
  Arguments : List Argument
  Gas : Option String
  GasBudget : String
deriving DecidableEq, Repr

/-- The fields of the SDK's `models.SuiTransactionBlockOptions` the handler
sets. -/
structure SuiTransactionBlockOptions where
  ShowInput : Bool
  ShowRawInput : Bool
  ShowEffects : Bool
deriving DecidableEq, Repr

/-- The SDK's `models.SignAndExecuteTransactionBlockRequest`, over the type
`Txn` of the SDK's `models.TxnMetaData`. -/
structure SignAndExecuteTransactionBlockRequest (Txn : Type) where
  TxnMetaData : Txn
  PriKey : List Nat
  Options : SuiTransactionBlockOptions
  RequestType : String
deriving DecidableEq

/-- The three SDK operations the handler uses, over a world state `σ` (the
ledger node and whatever else decides their outcome). Each returns its result
or an error text, and the next world. `endpoint` is the URL the client was
made with by `sui.NewSuiClient`. `marshal` is the JSON rendering of the SDK's
result type, a plain data struct. -/
structure Sdk (σ Txn Res : Type) where
  NewSignertWithMnemonic : σ → String → Except String Signer × σ
  MoveCall : σ → String → MoveCallRequest → Except String Txn × σ
  SignAndExecuteTransactionBlock :
    σ → String → SignAndExecuteTransactionBlockRequest Txn → Except String Res × σ
  marshal : Res → String

/-- An SDK operation performed by the handler, with its arguments. -/
inductive Call (Txn : Type) where
  | deriveSigner (mnemonic : String)
  | constructCall (endpoint : String) (req : MoveCallRequest)
  | signAndSubmit (endpoint : String) (req : SignAndExecuteTransactionBlockRequest Txn)

/-- The three kinds of SDK operation. -/
inductive CallKind where
  | deriveSigner
  | constructCall
  | signAndSubmit
deriving DecidableEq, Repr

/-- The kind of an SDK operation. -/
def Call.kind {Txn : Type} : Call Txn → CallKind
  | .deriveSigner _ => .deriveSigner
  | .constructCall _ _ => .constructCall
  | .signAndSubmit _ _ => .signAndSubmit

/-! ## The handlers -/

/-- What one run of `runInference` does: the response written, whether the
body was handed to the JSON decoder, the SDK operations performed in order,
the `ResponseBody` encoded (on success), what `utils.PrettyPrint` printed, and
the world the SDK operations left. -/
structure Outcome (σ Txn Res : Type) where
  response : HttpResponse
  decoded : Bool
  calls : List (Call Txn)
  envelope : Option (ResponseBody Res)
  printed : Option Res
  world : σ

/-- The URL given to `sui.NewSuiClient`. -/
def endpoint : String := "https://sui-devnet-endpoint.blockvision.org"

/-- The local `gasObj`. -/
def gasObj : String := "0xfa6e9bf9f256f322330c56b8ad2b128c051f95d21e78482a64e8fd72eeea6bc2"

/-- The slice `req`: the three request fields appended, in order, to an empty
`[]interface{}`. -/
def arguments (reqBody : RunInferenceReq) : List Argument :=
  (([] ++ [.strings reqBody.In1]) ++ [.strings reqBody.In2]) ++ [.text reqBody.In3]

/-- The `models.MoveCallRequest` literal passed to `cli.MoveCall`. -/
def moveCallRequest (signerAccount : Signer) (reqBody : RunInferenceReq) : MoveCallRequest :=
  { Signer := signerAccount.Address
    PackageObjectId := "0x1a17fdd92c9d989f5200900302df4901d66fd04062a34eccbb83f085230838d7"
    Module := "Inference"
    Function := "run"
    TypeArguments := []
    Arguments := arguments reqBody
    Gas := some gasObj
    GasBudget := "2000000000" }

/-- The `models.SignAndExecuteTransactionBlockRequest` literal passed to
`cli.SignAndExecuteTransactionBlock`. -/
def executeRequest {Txn : Type} (rsp : Txn) (priKey : List Nat) :
    SignAndExecuteTransactionBlockRequest Txn :=
  { TxnMetaData := rsp
    PriKey := priKey
    Options := { ShowInput := true, ShowRawInput := true, ShowEffects := true }
    RequestType := "WaitForLocalExecution" }

/-- The handler returned by `runInference(mnemonic)`, run on request `r` in
world `w`. -/
def runInference {σ Txn Res : Type} (sdk : Sdk σ Txn Res) (mnemonic : String)
    (w : σ) (r : Request) : Outcome σ Txn Res :=
  if r.Method ≠ MethodPost then
    { response := httpError "Method not allowed" StatusMethodNotAllowed
      decoded := false, calls := [], envelope := none, printed := none, world := w }
  else
    match Decode r.Body with
    | .error _ =>
      { response := httpError "Invalid JSON request body" StatusBadRequest
        decoded := true, calls := [], envelope := none, printed := none, world := w }
    | .ok reqBody =>
      match sdk.NewSignertWithMnemonic w mnemonic with
      | (.error err, w1) =>
        { response := httpError ("Failed to create signer: " ++ err) StatusInternalServerError
          decoded := true, calls := [.deriveSigner mnemonic]
          envelope := none, printed := none, world := w1 }
      | (.ok signerAccount, w1) =>
        let priKey := signerAccount.PriKey
        match sdk.MoveCall w1 endpoint (moveCallRequest signerAccount reqBody) with
        | (.error err, w2) =>
          { response := httpError ("MoveCall error: " ++ err) StatusInternalServerError
            decoded := true
            calls := [.deriveSigner mnemonic,
                      .constructCall endpoint (moveCallRequest signerAccount reqBody)]
            envelope := none, printed := none, world := w2 }
        | (.ok rsp, w2) =>
          match sdk.SignAndExecuteTransactionBlock w2 endpoint (executeRequest rsp priKey) with
          | (.error err, w3) =>
            { response :=
                httpError ("Transaction execution error: " ++ err) StatusInternalServerError
              decoded := true
              calls := [.deriveSigner mnemonic,
                        .constructCall endpoint (moveCallRequest signerAccount reqBody),
                        .signAndSubmit endpoint (executeRequest rsp priKey)]
              envelope := none, printed := none, world := w3 }
          | (.ok rsp2, w3) =>
            let response : ResponseBody Res :=
              { Message := "Transaction executed successfully", Data := some rsp2, Error := "" }
            { response :=
                { Status := StatusOK
                  Header := [("Content-Type", "application/json")]
                  Body := encodeResponseBody sdk.marshal response }
              decoded := true
              calls := [.deriveSigner mnemonic,
                        .constructCall endpoint (moveCallRequest signerAccount reqBody),
                        .signAndSubmit endpoint (executeRequest rsp priKey)]
              envelope := some response, printed := some rsp2, world := w3 }

/-- The handler `helloHandler`, run on request `r`. -/
def helloHandler (r : Request) : HttpResponse :=
  if r.Method ≠ MethodGet then
    httpError "Method not allowed" StatusMethodNotAllowed
  else
    let response : Response := { Message := "Hello, World!" }
    { Status := StatusOK
      Header := [("Content-Type", "application/json")]
      Body := encodeResponse response }

/-! ## Stub SDK and sample requests -/

/-- A stub SDK with canned outcomes. Its world is the number of operations
performed so far; transactions and results are texts. -/
def stubSdk (signer : Except String Signer) (call submit : Except String String) :
    Sdk Nat String String :=
  { NewSignertWithMnemonic := fun n _ => (signer, n + 1)
    MoveCall := fun n _ _ => (call, n + 1)
    SignAndExecuteTransactionBlock := fun n _ _ => (submit, n + 1)
    marshal := encodeString }

/-- A sample derived account. -/
def sampleSigner : Signer :=
  { PriKey := [7, 7, 7], PubKey := [9, 9], Address := "0xa11ce" }

/-- The body `{"in1":["1"],"in2":["2"],"in3":"3"}`. -/
def sampleBody : RequestBody :=
  .json (.object [("in1", .array [.string "1"]), ("in2", .array [.string "2"]),
    ("in3", .string "3")]) ""

/-- A slice holding the given elements in a backing array of its own. -/
def StringSlice.ofList (xs : List String) : StringSlice :=
  { elems := some xs, spare := [] }

/-- The request the sample body decodes to. -/
def sampleReq : RunInferenceReq :=
  { In1 := .ofList ["1"], In2 := .ofList ["2"], In3 := "3" }

/-- A POST request with the sample body. -/
def samplePost : Request :=
  { Method := "POST", Body := sampleBody }

/-- The body `{"in1":["1"]}`: an object without `in2` and `in3`. -/
def sparseBody : RequestBody :=
  .json (.object [("in1", .array [.string "1"])]) ""

/-- The body `{"in3":"a"}}{`: an object followed by text that makes the body
as a whole malformed JSON. -/
def trailingBody : RequestBody :=
  .json (.object [("in3", .string "a")]) "\x7d\x7b"

/-- The body `{"in3":3}`: `in3` is a number where a string is expected. -/
def mistypedBody : RequestBody :=
  .json (.object [("in3", .number "3")]) ""

/-- The body `{"in1":["a","b"],"IN1":["c",null]}`: the key of `in1` twice,
the second time in another case and with a `null` element. -/
def repeatedKeyBody : RequestBody :=
  .json (.object [("in1", .array [.string "a", .string "b"]),
    ("IN1", .array [.string "c", .null])]) ""

/-- A body with the three fields `in1`, `in2`, `in3` holding the given
texts. -/
def fieldsBody (xs ys : List String) (s : String) : RequestBody :=
  .json (.object [("in1", .array (xs.map .string)), ("in2", .array (ys.map .string)),
    ("in3", .string s)]) ""

/-- A POST request whose fields are neither numbers nor of equal length:
`{"in1":["not a number",""],"in2":[],"in3":"x y"}`. -/
def shapelessPost : Request :=
  { Method := "POST", Body := fieldsBody ["not a number", ""] [] "x y" }

/-- The call descriptor of `shapelessPost` for the sample account, written
out. -/
def shapelessDescriptor : MoveCallRequest :=
  { Signer := "0xa11ce"
    PackageObjectId := "0x1a17fdd92c9d989f5200900302df4901d66fd04062a34eccbb83f085230838d7"
    Module := "Inference"
    Function := "run"
    TypeArguments := []
    Arguments := [.strings (.ofList ["not a number", ""]), .strings (.ofList []), .text "x y"]
    Gas := some "0xfa6e9bf9f256f322330c56b8ad2b128c051f95d21e78482a64e8fd72eeea6bc2"
    GasBudget := "2000000000" }

/-- A stub SDK that looks at what it is handed: the sample account is derived
from the mnemonic `words` only, call construction returns the transaction
`tx` for the descriptor `d` at the devnet URL only, and sign-and-submit
returns `canned` for the request `e` at that URL only. Everything else is
refused. Its world is the number of operations performed so far. -/
def strictSdk (d : MoveCallRequest) (e : SignAndExecuteTransactionBlockRequest String) :
    Sdk Nat String String :=
  { NewSignertWithMnemonic := fun n m =>
      (if m = "words" then .ok sampleSigner else .error "unknown mnemonic", n + 1)
    MoveCall := fun n url req =>
      (if url = "https://sui-devnet-endpoint.blockvision.org" ∧ req = d then .ok "tx"
        else .error "unexpected call", n + 1)
    SignAndExecuteTransactionBlock := fun n url req =>
      (if url = "https://sui-devnet-endpoint.blockvision.org" ∧ req = e then .ok "canned"
        else .error "unexpected submission", n + 1)
    marshal := encodeString }

/-- The submission of the transaction `tx` with the sample account's private
key, written out. -/
def sampleSubmission : SignAndExecuteTransactionBlockRequest String :=
  { TxnMetaData := "tx"
    PriKey := [7, 7, 7]
    Options := { ShowInput := true, ShowRawInput := true, ShowEffects := true }
    RequestType := "WaitForLocalExecution" }

/-! ## Type mismatches, as the JSON decoder reports them -/

/-- A JSON value does not fit a Go `string`: it is neither a string nor
`null`. -/
def stringMismatch : JSON → Bool
  | .string _ => false
  | .null => false
  | _ => true

/-- A JSON value does not fit a Go `[]string`: it is neither `null` nor an
array of strings and `null`s. -/
def sliceMismatch : JSON → Bool
  | .null => false
  | .array elems => elems.any stringMismatch
  | _ => true

/-- An object member does not fit the field its key names. -/
def memberMismatch (m : String × JSON) : Bool :=
  if keyMatches m.1 ['i', 'n', '1'] then sliceMismatch m.2
  else if keyMatches m.1 ['i', 'n', '2'] then sliceMismatch m.2
  else if keyMatches m.1 ['i', 'n', '3'] then stringMismatch m.2
  else false

/-- A JSON value does not fit `RunInferenceReq`: it is neither `null` nor an
object all of whose members fit. -/
def typeMismatch : JSON → Bool
  | .null => false
  | .object members => members.any memberMismatch
  | _ => true


/-! ## Facts about decoding -/

theorem storeString_flag (old : String) (v : JSON) :
    (storeString old v).2 = stringMismatch v := by
  cases v <;> rfl

theorem storeElems_flag (es : List JSON) (slots : List String) :
    (storeElems slots es).2 = es.any stringMismatch := by
  induction es generalizing slots with
  | nil => rfl
  | cons e es ih => simp only [storeElems, List.any_cons, storeString_flag, ih]

theorem storeStringSlice_flag (old : StringSlice) (v : JSON) :
    (storeStringSlice old v).2 = sliceMismatch v := by
  cases v with
  | array elems =>
    cases elems with
    | nil => rfl
    | cons e es => simp only [storeStringSlice, sliceMismatch, storeElems_flag]
  | _ => rfl

theorem storeMember_flag (st : RunInferenceReq × Bool) (m : String × JSON) :
    (storeMember st m).2 = (st.2 || memberMismatch m) := by
  unfold storeMember memberMismatch
  split
  · simp [storeStringSlice_flag]
  · split
    · simp [storeStringSlice_flag]
    · split
      · simp [storeString_flag]
      · simp

theorem foldl_storeMember_flag (members : List (String × JSON)) (st : RunInferenceReq × Bool) :
    (members.foldl storeMember st).2 = (st.2 || members.any memberMismatch) := by
  induction members generalizing st with
  | nil => simp
  | cons m ms ih =>
    rw [List.foldl_cons, ih, storeMember_flag, List.any_cons, Bool.or_assoc]

/-- Unmarshalling fails exactly on a type mismatch. -/
theorem unmarshal_error_iff (v : JSON) :
    (∃ e, unmarshal v = .error e) ↔ typeMismatch v = true := by
  cases v with
  | object members =>
    have h := foldl_storeMember_flag members (zeroRunInferenceReq, false)
    simp only [Bool.false_or] at h
    simp only [unmarshal, typeMismatch, h]
    cases members.any memberMismatch <;> simp
  | _ => simp [unmarshal, typeMismatch]

/-- Decoding fails exactly on a body that does not start with a well-formed
value, on a first value nested too deeply, and on a type mismatch. -/
theorem Decode_error_iff (b : RequestBody) :
    (∃ e, Decode b = .error e) ↔
      (b = .malformed ∨
        ∃ v rest, b = .json v rest ∧ (maxNestingDepth < v.depth ∨ typeMismatch v = true)) := by
  cases b with
  | malformed => simp [Decode]
  | json v rest =>
    by_cases hdepth : maxNestingDepth < v.depth
    · simp [Decode, hdepth]
    · simp [Decode, hdepth, unmarshal_error_iff]

/-! ## The exits of `runInference` -/

theorem runInference_of_not_post {σ Txn Res : Type} (sdk : Sdk σ Txn Res) (mnemonic : String)
    (w : σ) (r : Request) (hm : r.Method ≠ MethodPost) :
    runInference sdk mnemonic w r =
      { response := httpError "Method not allowed" StatusMethodNotAllowed
        decoded := false, calls := [], envelope := none, printed := none, world := w } := by
  simp only [runInference, hm, ne_eq, not_false_eq_true, ↓reduceIte]

theorem runInference_of_decode_error {σ Txn Res : Type} (sdk : Sdk σ Txn Res)
    (mnemonic : String) (w : σ) (r : Request) (e : DecodeError)
    (hm : r.Method = MethodPost) (hd : Decode r.Body = .error e) :
    runInference sdk mnemonic w r =
      { response := httpError "Invalid JSON request body" StatusBadRequest
        decoded := true, calls := [], envelope := none, printed := none, world := w } := by
  simp only [runInference, hm, hd, ne_eq, not_true_eq_false, ↓reduceIte]

theorem runInference_of_signer_error {σ Txn Res : Type} (sdk : Sdk σ Txn Res)
    (mnemonic : String) (w w1 : σ) (r : Request) (reqBody : RunInferenceReq) (err : String)
    (hm : r.Method = MethodPost) (hd : Decode r.Body = .ok reqBody)
    (hs : sdk.NewSignertWithMnemonic w mnemonic = (.error err, w1)) :
    runInference sdk mnemonic w r =
      { response := httpError ("Failed to create signer: " ++ err) StatusInternalServerError
        decoded := true, calls := [.deriveSigner mnemonic]
        envelope := none, printed := none, world := w1 } := by
  simp only [runInference, hm, hd, hs, ne_eq, not_true_eq_false, ↓reduceIte]

theorem runInference_of_moveCall_error {σ Txn Res : Type} (sdk : Sdk σ Txn Res)
    (mnemonic : String) (w w1 w2 : σ) (r : Request) (reqBody : RunInferenceReq)
    (signerAccount : Signer) (err : String)
    (hm : r.Method = MethodPost) (hd : Decode r.Body = .ok reqBody)
    (hs : sdk.NewSignertWithMnemonic w mnemonic = (.ok signerAccount, w1))
    (hc : sdk.MoveCall w1 endpoint (moveCallRequest signerAccount reqBody) = (.error err, w2)) :
    runInference sdk mnemonic w r =
      { response := httpError ("MoveCall error: " ++ err) StatusInternalServerError
        decoded := true
        calls := [.deriveSigner mnemonic,
                  .constructCall endpoint (moveCallRequest signerAccount reqBody)]
        envelope := none, printed := none, world := w2 } := by
  simp only [runInference, hm, hd, hs, hc, ne_eq, not_true_eq_false, ↓reduceIte]

theorem runInference_of_submit_error {σ Txn Res : Type} (sdk : Sdk σ Txn Res)
    (mnemonic : String) (w w1 w2 w3 : σ) (r : Request) (reqBody : RunInferenceReq)
    (signerAccount : Signer) (rsp : Txn) (err : String)
    (hm : r.Method = MethodPost) (hd : Decode r.Body = .ok reqBody)
    (hs : sdk.NewSignertWithMnemonic w mnemonic = (.ok signerAccount, w1))
    (hc : sdk.MoveCall w1 endpoint (moveCallRequest signerAccount reqBody) = (.ok rsp, w2))
    (hx : sdk.SignAndExecuteTransactionBlock w2 endpoint
      (executeRequest rsp signerAccount.PriKey) = (.error err, w3)) :
    runInference sdk mnemonic w r =
      { response := httpError ("Transaction execution error: " ++ err) StatusInternalServerError
        decoded := true
        calls := [.deriveSigner mnemonic,
                  .constructCall endpoint (moveCallRequest signerAccount reqBody),
                  .signAndSubmit endpoint (executeRequest rsp signerAccount.PriKey)]
        envelope := none, printed := none, world := w3 } := by
  simp only [runInference, hm, hd, hs, hc, hx, ne_eq, not_true_eq_false, ↓reduceIte]

theorem runInference_of_ok {σ Txn Res : Type} (sdk : Sdk σ Txn Res)
    (mnemonic : String) (w w1 w2 w3 : σ) (r : Request) (reqBody : RunInferenceReq)
    (signerAccount : Signer) (rsp : Txn) (rsp2 : Res)
    (hm : r.Method = MethodPost) (hd : Decode r.Body = .ok reqBody)
    (hs : sdk.NewSignertWithMnemonic w mnemonic = (.ok signerAccount, w1))
    (hc : sdk.MoveCall w1 endpoint (moveCallRequest signerAccount reqBody) = (.ok rsp, w2))
    (hx : sdk.SignAndExecuteTransactionBlock w2 endpoint
      (executeRequest rsp signerAccount.PriKey) = (.ok rsp2, w3)) :
    runInference sdk mnemonic w r =
      { response :=
          { Status := StatusOK
            Header := [("Content-Type", "application/json")]
            Body := encodeResponseBody sdk.marshal
              { Message := "Transaction executed successfully", Data := some rsp2, Error := "" } }
        decoded := true
        calls := [.deriveSigner mnemonic,
                  .constructCall endpoint (moveCallRequest signerAccount reqBody),
                  .signAndSubmit endpoint (executeRequest rsp signerAccount.PriKey)]
        envelope :=
          some { Message := "Transaction executed successfully", Data := some rsp2, Error := "" }
        printed := some rsp2, world := w3 } := by
  simp only [runInference, hm, hd, hs, hc, hx, ne_eq, not_true_eq_false, ↓reduceIte]

/-! ## The submission endpoint: success and upstream failures -/

/-- Claim C1. A POST to `/run` whose body decodes, with signer derivation, call
construction and sign-and-submit all succeeding, is answered with status 200
and the JSON envelope whose message is "Transaction executed successfully",
whose data is the result sign-and-submit returned, and which has no error
field. -/
theorem runInference_success {σ Txn Res : Type} (sdk : Sdk σ Txn Res) (mnemonic : String)
    (w w1 w2 w3 : σ) (r : Request) (reqBody : RunInferenceReq) (signerAccount : Signer)
    (rsp : Txn) (rsp2 : Res)
    (hm : r.Method = MethodPost)
    (hd : Decode r.Body = .ok reqBody)
    (hs : sdk.NewSignertWithMnemonic w mnemonic = (.ok signerAccount, w1))
    (hc : sdk.MoveCall w1 endpoint (moveCallRequest signerAccount reqBody) = (.ok rsp, w2))
    (hx : sdk.SignAndExecuteTransactionBlock w2 endpoint
      (executeRequest rsp signerAccount.PriKey) = (.ok rsp2, w3)) :
    (runInference sdk mnemonic w r).response.Status = 200 ∧
    (runInference sdk mnemonic w r).response.Body =
      "\x7b\"message\":\"Transaction executed successfully\",\"data\":"
        ++ sdk.marshal rsp2 ++ "\x7d\n" ∧
    (runInference sdk mnemonic w r).envelope =
      some { Message := "Transaction executed successfully", Data := some rsp2, Error := "" } ∧
    (runInference sdk mnemonic w r).response.Header = [("Content-Type", "application/json")] := by
  simp only [runInference, hm, hd, hs, hc, hx]
  refine ⟨by simp [StatusOK], ?_, by simp, by simp⟩
  simp only [ne_eq, not_true_eq_false, ↓reduceIte, encodeResponseBody]
  have hq : encodeString "Transaction executed successfully"
      = "\"Transaction executed successfully\"" := by decide
  rw [hq]
  apply String.ext
  simp [String.data_append]

/-- The claim C1 at the body `{"in1":["1"],"in2":["2"],"in3":"3"}` with a stub
SDK that succeeds with the canned result `canned`. -/
theorem runInference_success_witness :
    (runInference (stubSdk (.ok sampleSigner) (.ok "tx") (.ok "canned")) "words" 0
        samplePost).response.Status = 200 ∧
    (runInference (stubSdk (.ok sampleSigner) (.ok "tx") (.ok "canned")) "words" 0
        samplePost).response.Body =
      "\x7b\"message\":\"Transaction executed successfully\",\"data\":"
        ++ (stubSdk (.ok sampleSigner) (.ok "tx") (.ok "canned")).marshal "canned" ++ "\x7d\n" ∧
    (runInference (stubSdk (.ok sampleSigner) (.ok "tx") (.ok "canned")) "words" 0
        samplePost).envelope =
      some { Message := "Transaction executed successfully", Data := some "canned",
             Error := "" } ∧
    (runInference (stubSdk (.ok sampleSigner) (.ok "tx") (.ok "canned")) "words" 0
        samplePost).response.Header = [("Content-Type", "application/json")] :=
  runInference_success (stubSdk (.ok sampleSigner) (.ok "tx") (.ok "canned")) "words"
    0 1 2 3 samplePost sampleReq sampleSigner "tx" "canned" rfl rfl rfl rfl rfl

/-- An error text written by `http.Error` after a fixed label stands in the
body verbatim. -/
theorem httpError_contains (label err : String) (code : Nat) :
    err.data <:+: (httpError (label ++ err) code).Body.data :=
  ⟨label.data, ['\n'], by simp [httpError, String.data_append]⟩

/-- Claim C3. A POST to `/run` whose body decodes, with signer derivation
failing with error `err`, is answered with status 500 and a body containing
`err`; signer derivation is the only SDK operation performed, so neither call
construction nor sign-and-submit is invoked. -/
theorem runInference_signer_failure {σ Txn Res : Type} (sdk : Sdk σ Txn Res)
    (mnemonic : String) (w w1 : σ) (r : Request) (reqBody : RunInferenceReq) (err : String)
    (hm : r.Method = MethodPost)
    (hd : Decode r.Body = .ok reqBody)
    (hs : sdk.NewSignertWithMnemonic w mnemonic = (.error err, w1)) :
    (runInference sdk mnemonic w r).response.Status = 500 ∧
    (runInference sdk mnemonic w r).response.Body = "Failed to create signer: " ++ err ++ "\n" ∧
    err.data <:+: (runInference sdk mnemonic w r).response.Body.data ∧
    (runInference sdk mnemonic w r).calls = [.deriveSigner mnemonic] ∧
    (runInference sdk mnemonic w r).world = w1 := by
  simp only [runInference, hm, hd, hs]
  refine ⟨by simp [httpError, StatusInternalServerError], by simp [httpError], ?_, by simp,
    by simp⟩
  simpa using httpError_contains "Failed to create signer: " err StatusInternalServerError

/-- The claim C3 with a stub whose signer derivation fails with
`bad mnemonic`: the stub has recorded one operation. -/
theorem runInference_signer_failure_witness :
    (runInference (stubSdk (.error "bad mnemonic") (.ok "tx") (.ok "canned")) "words" 0
        samplePost).response.Status = 500 ∧
    (runInference (stubSdk (.error "bad mnemonic") (.ok "tx") (.ok "canned")) "words" 0
        samplePost).response.Body = "Failed to create signer: " ++ "bad mnemonic" ++ "\n" ∧
    "bad mnemonic".data <:+:
      (runInference (stubSdk (.error "bad mnemonic") (.ok "tx") (.ok "canned")) "words" 0
        samplePost).response.Body.data ∧
    (runInference (stubSdk (.error "bad mnemonic") (.ok "tx") (.ok "canned")) "words" 0
        samplePost).calls = [.deriveSigner "words"] ∧
    (runInference (stubSdk (.error "bad mnemonic") (.ok "tx") (.ok "canned")) "words" 0
        samplePost).world = 1 :=
  runInference_signer_failure (stubSdk (.error "bad mnemonic") (.ok "tx") (.ok "canned"))
    "words" 0 1 samplePost sampleReq "bad mnemonic" rfl rfl rfl

/-- Claim C4. A POST to `/run` whose body decodes, with signer derivation and
call construction succeeding and sign-and-submit failing with error `err`, is
answered with status 500 and a body containing `err`; sign-and-submit was
invoked exactly once. -/
theorem runInference_submit_failure {σ Txn Res : Type} (sdk : Sdk σ Txn Res)
    (mnemonic : String) (w w1 w2 w3 : σ) (r : Request) (reqBody : RunInferenceReq)
    (signerAccount : Signer) (rsp : Txn) (err : String)
    (hm : r.Method = MethodPost)
    (hd : Decode r.Body = .ok reqBody)
    (hs : sdk.NewSignertWithMnemonic w mnemonic = (.ok signerAccount, w1))
    (hc : sdk.MoveCall w1 endpoint (moveCallRequest signerAccount reqBody) = (.ok rsp, w2))
    (hx : sdk.SignAndExecuteTransactionBlock w2 endpoint
      (executeRequest rsp signerAccount.PriKey) = (.error err, w3)) :
    (runInference sdk mnemonic w r).response.Status = 500 ∧
    (runInference sdk mnemonic w r).response.Body =
      "Transaction execution error: " ++ err ++ "\n" ∧
    err.data <:+: (runInference sdk mnemonic w r).response.Body.data ∧
    ((runInference sdk mnemonic w r).calls.map Call.kind).count .signAndSubmit = 1 ∧
    (runInference sdk mnemonic w r).calls =
      [.deriveSigner mnemonic,
       .constructCall endpoint (moveCallRequest signerAccount reqBody),
       .signAndSubmit endpoint (executeRequest rsp signerAccount.PriKey)] ∧
    (runInference sdk mnemonic w r).world = w3 := by
  simp only [runInference, hm, hd, hs, hc, hx]
  refine ⟨by simp [httpError, StatusInternalServerError], by simp [httpError], ?_,
    by simp [Call.kind], by simp, by simp⟩
  simpa using httpError_contains "Transaction execution error: " err StatusInternalServerError

/-- The claim C4 with a stub whose sign-and-submit fails with `node down`: the
stub has recorded three operations, one of them the submission. -/
theorem runInference_submit_failure_witness :
    (runInference (stubSdk (.ok sampleSigner) (.ok "tx") (.error "node down")) "words" 0
        samplePost).response.Status = 500 ∧
    (runInference (stubSdk (.ok sampleSigner) (.ok "tx") (.error "node down")) "words" 0
        samplePost).response.Body = "Transaction execution error: " ++ "node down" ++ "\n" ∧
    "node down".data <:+:
      (runInference (stubSdk (.ok sampleSigner) (.ok "tx") (.error "node down")) "words" 0
        samplePost).response.Body.data ∧
    ((runInference (stubSdk (.ok sampleSigner) (.ok "tx") (.error "node down")) "words" 0
        samplePost).calls.map Call.kind).count .signAndSubmit = 1 ∧
    (runInference (stubSdk (.ok sampleSigner) (.ok "tx") (.error "node down")) "words" 0
        samplePost).calls =
      [.deriveSigner "words",
       .constructCall endpoint (moveCallRequest sampleSigner sampleReq),
       .signAndSubmit endpoint (executeRequest "tx" sampleSigner.PriKey)] ∧
    (runInference (stubSdk (.ok sampleSigner) (.ok "tx") (.error "node down")) "words" 0
        samplePost).world = 3 :=
  runInference_submit_failure (stubSdk (.ok sampleSigner) (.ok "tx") (.error "node down"))
    "words" 0 1 2 3 samplePost sampleReq sampleSigner "tx" "node down" rfl rfl rfl rfl rfl

/-- Claim C5. A POST to `/run` whose body decodes, with signer derivation
succeeding and call construction failing with error `err`, is answered with
status 500 and a body containing `err` verbatim; sign-and-submit is never
invoked. -/
theorem runInference_moveCall_failure {σ Txn Res : Type} (sdk : Sdk σ Txn Res)
    (mnemonic : String) (w w1 w2 : σ) (r : Request) (reqBody : RunInferenceReq)
    (signerAccount : Signer) (err : String)
    (hm : r.Method = MethodPost)
    (hd : Decode r.Body = .ok reqBody)
    (hs : sdk.NewSignertWithMnemonic w mnemonic = (.ok signerAccount, w1))
    (hc : sdk.MoveCall w1 endpoint (moveCallRequest signerAccount reqBody) = (.error err, w2)) :
    (runInference sdk mnemonic w r).response.Status = 500 ∧
    (runInference sdk mnemonic w r).response.Body = "MoveCall error: " ++ err ++ "\n" ∧
    err.data <:+: (runInference sdk mnemonic w r).response.Body.data ∧
    ((runInference sdk mnemonic w r).calls.map Call.kind).count .signAndSubmit = 0 ∧
    (runInference sdk mnemonic w r).calls =
      [.deriveSigner mnemonic,
       .constructCall endpoint (moveCallRequest signerAccount reqBody)] ∧
    (runInference sdk mnemonic w r).world = w2 := by
  simp only [runInference, hm, hd, hs, hc]
  refine ⟨by simp [httpError, StatusInternalServerError], by simp [httpError], ?_,
    by simp [Call.kind], by simp, by simp⟩
  simpa using httpError_contains "MoveCall error: " err StatusInternalServerError

/-- The claim C5 with a stub whose call construction fails with `no gas`: the
stub has recorded two operations, none of them the submission. -/
theorem runInference_moveCall_failure_witness :
    (runInference (stubSdk (.ok sampleSigner) (.error "no gas") (.ok "canned")) "words" 0
        samplePost).response.Status = 500 ∧
    (runInference (stubSdk (.ok sampleSigner) (.error "no gas") (.ok "canned")) "words" 0
        samplePost).response.Body = "MoveCall error: " ++ "no gas" ++ "\n" ∧
    "no gas".data <:+:
      (runInference (stubSdk (.ok sampleSigner) (.error "no gas") (.ok "canned")) "words" 0
        samplePost).response.Body.data ∧
    ((runInference (stubSdk (.ok sampleSigner) (.error "no gas") (.ok "canned")) "words" 0
        samplePost).calls.map Call.kind).count .signAndSubmit = 0 ∧
    (runInference (stubSdk (.ok sampleSigner) (.error "no gas") (.ok "canned")) "words" 0
        samplePost).calls =
      [.deriveSigner "words",
       .constructCall endpoint (moveCallRequest sampleSigner sampleReq)] ∧
    (runInference (stubSdk (.ok sampleSigner) (.error "no gas") (.ok "canned")) "words" 0
        samplePost).world = 2 :=
  runInference_moveCall_failure (stubSdk (.ok sampleSigner) (.error "no gas") (.ok "canned"))
    "words" 0 1 2 samplePost sampleReq sampleSigner "no gas" rfl rfl rfl rfl

/-! ## The submission endpoint: bodies that do not decode -/

/-- Claim C2 as the spec states it fails. The body `{"in1":["1"]}`, an object
without `in2` and `in3`, decodes (the absent fields keep their zero values);
with a stub SDK that succeeds the response is 200, not 400, and the three SDK
operations are performed. The same happens for the body `{"in3":"a"}}{`,
which is malformed JSON as a whole: the decoder reads the object it starts
with and nothing after it. -/
theorem runInference_missing_fields_accepted :
    Decode sparseBody = .ok { In1 := .ofList ["1"], In2 := .nil, In3 := "" } ∧
    (runInference (stubSdk (.ok sampleSigner) (.ok "tx") (.ok "canned")) "words" 0
        { Method := "POST", Body := sparseBody }).response.Status = 200 ∧
    (runInference (stubSdk (.ok sampleSigner) (.ok "tx") (.ok "canned")) "words" 0
        { Method := "POST", Body := sparseBody }).response.Status ≠ 400 ∧
    (runInference (stubSdk (.ok sampleSigner) (.ok "tx") (.ok "canned")) "words" 0
        { Method := "POST", Body := sparseBody }).calls.map Call.kind =
      [.deriveSigner, .constructCall, .signAndSubmit] ∧
    (runInference (stubSdk (.ok sampleSigner) (.ok "tx") (.ok "canned")) "words" 0
        { Method := "POST", Body := sparseBody }).world = 3 ∧
    Decode trailingBody = .ok { In1 := .nil, In2 := .nil, In3 := "a" } ∧
    (runInference (stubSdk (.ok sampleSigner) (.ok "tx") (.ok "canned")) "words" 0
        { Method := "POST", Body := trailingBody }).response.Status = 200 ∧
    (runInference (stubSdk (.ok sampleSigner) (.ok "tx") (.ok "canned")) "words" 0
        { Method := "POST", Body := trailingBody }).calls.map Call.kind =
      [.deriveSigner, .constructCall, .signAndSubmit] ∧
    (runInference (stubSdk (.ok sampleSigner) (.ok "tx") (.ok "canned")) "words" 0
        { Method := "POST", Body := trailingBody }).world = 3 :=
  ⟨rfl, rfl, by decide, rfl, rfl, rfl, rfl, rfl, rfl⟩

/-- Claim C2, amended. A POST to `/run` whose body does not start with a
well-formed JSON value, or whose first JSON value is nested deeper than the
decoder allows, or has a type mismatch (it is neither an object nor `null`,
or it gives `in1`, `in2` or `in3` a value of the wrong JSON type), is
answered with status 400 and no SDK operation is performed. -/
theorem runInference_undecodable_body {σ Txn Res : Type} (sdk : Sdk σ Txn Res)
    (mnemonic : String) (w : σ) (r : Request)
    (hm : r.Method = MethodPost)
    (hb : r.Body = .malformed ∨
      ∃ v rest, r.Body = .json v rest ∧ (10000 < v.depth ∨ typeMismatch v = true)) :
    (runInference sdk mnemonic w r).response.Status = 400 ∧
    (runInference sdk mnemonic w r).response.Body = "Invalid JSON request body\n" ∧
    (runInference sdk mnemonic w r).calls = [] ∧
    (runInference sdk mnemonic w r).world = w := by
  obtain ⟨e, he⟩ := (Decode_error_iff r.Body).mpr hb
  rw [runInference_of_decode_error sdk mnemonic w r e hm he]
  refine ⟨rfl, ?_, rfl, rfl⟩
  show "Invalid JSON request body" ++ "\n" = "Invalid JSON request body\n"
  decide

/-- The amended claim C2 at the body `{"in3":3}`: the stub has recorded no
operation. -/
theorem runInference_undecodable_body_witness :
    (runInference (stubSdk (.ok sampleSigner) (.ok "tx") (.ok "canned")) "words" 0
        { Method := "POST", Body := mistypedBody }).response.Status = 400 ∧
    (runInference (stubSdk (.ok sampleSigner) (.ok "tx") (.ok "canned")) "words" 0
        { Method := "POST", Body := mistypedBody }).response.Body
      = "Invalid JSON request body\n" ∧
    (runInference (stubSdk (.ok sampleSigner) (.ok "tx") (.ok "canned")) "words" 0
        { Method := "POST", Body := mistypedBody }).calls = [] ∧
    (runInference (stubSdk (.ok sampleSigner) (.ok "tx") (.ok "canned")) "words" 0
        { Method := "POST", Body := mistypedBody }).world = 0 :=
  runInference_undecodable_body (stubSdk (.ok sampleSigner) (.ok "tx") (.ok "canned")) "words" 0
    { Method := "POST", Body := mistypedBody } rfl
    (Or.inr ⟨.object [("in3", .number "3")], "", rfl, Or.inr rfl⟩)

/-! ## The liveness endpoint -/

/-- Claim C6 as the spec states it fails. On GET the body written by
`/hello` is not the 27 bytes `{"message":"Hello, World!"}`: the encoder ends
its output with a newline, so the body has 28 bytes. -/
theorem helloHandler_body_has_newline :
    (helloHandler { Method := "GET", Body := .malformed }).Body
      ≠ "\x7b\"message\":\"Hello, World!\"\x7d" ∧
    (helloHandler { Method := "GET", Body := .malformed }).Body.length = 28 ∧
    "\x7b\"message\":\"Hello, World!\"\x7d".length = 27 := by
  decide

/-- Claim C6, amended. For every request with method GET, `/hello` answers with
status 200 and a body that is exactly `{"message":"Hello, World!"}` followed
by one newline. -/
theorem helloHandler_get (r : Request) (hm : r.Method = MethodGet) :
    (helloHandler r).Status = 200 ∧
    (helloHandler r).Body = "\x7b\"message\":\"Hello, World!\"\x7d" ++ "\n" ∧
    (helloHandler r).Header = [("Content-Type", "application/json")] := by
  simp only [helloHandler, hm, ne_eq, not_true_eq_false, ↓reduceIte]
  decide

/-- The amended claim C6 at a GET request with the sample body. -/
theorem helloHandler_get_witness :
    (helloHandler { Method := "GET", Body := sampleBody }).Status = 200 ∧
    (helloHandler { Method := "GET", Body := sampleBody }).Body
      = "\x7b\"message\":\"Hello, World!\"\x7d" ++ "\n" ∧
    (helloHandler { Method := "GET", Body := sampleBody }).Header
      = [("Content-Type", "application/json")] :=
  helloHandler_get { Method := "GET", Body := sampleBody } rfl

/-! ## Method guards -/

/-- Claim C7. `/run` answers every method other than POST with 405, without
handing the body to the decoder and without performing any SDK operation, and
`/hello` answers every method other than GET with 405; in both cases the
response is the same whatever the body is. A method other than GET and POST
is therefore answered with 405 by both. -/
theorem method_not_allowed {σ Txn Res : Type} (sdk : Sdk σ Txn Res) (mnemonic : String)
    (w : σ) (r : Request) :
    (r.Method ≠ MethodPost →
      (runInference sdk mnemonic w r).response
        = httpError "Method not allowed" StatusMethodNotAllowed ∧
      (runInference sdk mnemonic w r).response.Status = 405 ∧
      (runInference sdk mnemonic w r).decoded = false ∧
      (runInference sdk mnemonic w r).calls = [] ∧
      (runInference sdk mnemonic w r).world = w) ∧
    (r.Method ≠ MethodGet →
      helloHandler r = httpError "Method not allowed" StatusMethodNotAllowed ∧
      (helloHandler r).Status = 405) := by
  constructor
  · intro hm
    simp [runInference, hm, httpError, StatusMethodNotAllowed]
  · intro hm
    simp [helloHandler, hm, httpError, StatusMethodNotAllowed]

/-- The claim C7 at a PUT request carrying the sample body, which a POST
would have had executed. -/
theorem method_not_allowed_witness :
    ("PUT" ≠ MethodPost ∧ "PUT" ≠ MethodGet) ∧
    ((runInference (stubSdk (.ok sampleSigner) (.ok "tx") (.ok "canned")) "words" 0
        { Method := "PUT", Body := sampleBody }).response
        = httpError "Method not allowed" StatusMethodNotAllowed ∧
      (runInference (stubSdk (.ok sampleSigner) (.ok "tx") (.ok "canned")) "words" 0
        { Method := "PUT", Body := sampleBody }).response.Status = 405 ∧
      (runInference (stubSdk (.ok sampleSigner) (.ok "tx") (.ok "canned")) "words" 0
        { Method := "PUT", Body := sampleBody }).decoded = false ∧
      (runInference (stubSdk (.ok sampleSigner) (.ok "tx") (.ok "canned")) "words" 0
        { Method := "PUT", Body := sampleBody }).calls = [] ∧
      (runInference (stubSdk (.ok sampleSigner) (.ok "tx") (.ok "canned")) "words" 0
        { Method := "PUT", Body := sampleBody }).world = 0) ∧
    (helloHandler { Method := "PUT", Body := sampleBody }
        = httpError "Method not allowed" StatusMethodNotAllowed ∧
      (helloHandler { Method := "PUT", Body := sampleBody }).Status = 405) :=
  ⟨⟨by decide, by decide⟩,
   (method_not_allowed (stubSdk (.ok sampleSigner) (.ok "tx") (.ok "canned")) "words" 0
      { Method := "PUT", Body := sampleBody }).1 (by decide),
   (method_not_allowed (stubSdk (.ok sampleSigner) (.ok "tx") (.ok "canned")) "words" 0
      { Method := "PUT", Body := sampleBody }).2 (by decide)⟩

/-! ## What is handed to the SDK -/

/-- JSON strings are stored into the slots as they stand. -/
theorem storeElems_strings (zs : List String) (slots : List String) :
    storeElems slots (zs.map .string) = (zs, false) := by
  induction zs generalizing slots with
  | nil => rfl
  | cons z zs ih => simp only [List.map_cons, storeElems, storeString, ih, Bool.or_self]

/-- An array of JSON strings is stored in a nil `[]string` as it stands. -/
theorem storeStringSlice_strings (zs : List String) :
    storeStringSlice .nil (.array (zs.map .string)) = (.ofList zs, false) := by
  cases zs with
  | nil => rfl
  | cons z zs =>
    have h := storeElems_strings (z :: zs) StringSlice.nil.slots
    simp only [List.map_cons] at h
    simp only [List.map_cons, storeStringSlice, h, StringSlice.ofList]
    rfl

/-- Any three fields decode as they stand: the decoder checks neither length
nor shape nor whether the texts are numbers. -/
theorem Decode_fieldsBody (xs ys : List String) (s : String) :
    Decode (fieldsBody xs ys s)
      = .ok { In1 := .ofList xs, In2 := .ofList ys, In3 := s } := by
  have k1 : keyMatches "in1" ['i', 'n', '1'] = true := by decide
  have k2 : keyMatches "in2" ['i', 'n', '1'] = false := by decide
  have k3 : keyMatches "in2" ['i', 'n', '2'] = true := by decide
  have k4 : keyMatches "in3" ['i', 'n', '1'] = false := by decide
  have k5 : keyMatches "in3" ['i', 'n', '2'] = false := by decide
  have k6 : keyMatches "in3" ['i', 'n', '3'] = true := by decide
  have h1 : storeMember (zeroRunInferenceReq, false) ("in1", .array (xs.map .string))
      = ({ In1 := .ofList xs, In2 := .nil, In3 := "" }, false) := by
    simp [storeMember, k1, storeStringSlice_strings, zeroRunInferenceReq]
  have h2 : storeMember ({ In1 := .ofList xs, In2 := .nil, In3 := "" }, false)
      ("in2", .array (ys.map .string))
      = ({ In1 := .ofList xs, In2 := .ofList ys, In3 := "" }, false) := by
    simp [storeMember, k2, k3, storeStringSlice_strings]
  have h3 : storeMember ({ In1 := .ofList xs, In2 := .ofList ys, In3 := "" }, false)
      ("in3", .string s)
      = ({ In1 := .ofList xs, In2 := .ofList ys, In3 := s }, false) := by
    simp [storeMember, k4, k5, k6, storeString]
  have hdepth : ¬ maxNestingDepth <
      (JSON.object [("in1", .array (xs.map .string)), ("in2", .array (ys.map .string)),
        ("in3", .string s)]).depth := by
    have hz : ∀ zs : List String, depthOfElems (zs.map .string) = 0 := by
      intro zs
      induction zs with
      | nil => rfl
      | cons z zs ih => simp [depthOfElems, JSON.depth, ih]
    simp [JSON.depth, depthOfMembers, hz, maxNestingDepth]
  simp only [Decode, fieldsBody, hdepth, ↓reduceIte, unmarshal, List.foldl_cons,
    List.foldl_nil, h1, h2, h3]
  simp

/-- A key that comes twice, in whatever case, is stored into the slice the
first occurrence left: in `{"in1":["a","b"],"IN1":["c",null]}` the `null`
leaves `b` where it was. -/
theorem Decode_repeatedKeyBody :
    Decode repeatedKeyBody = .ok { In1 := .ofList ["c", "b"], In2 := .nil, In3 := "" } := by
  rfl

/-- Claim C8. Whatever request the body decodes to, once the signer is derived
call construction is applied to the descriptor that has the argument list
`[in1, in2, in3]`, no type arguments, and the fixed package, module
`Inference`, function `run`, gas object and gas budget `2000000000`; only the
signer address and the argument list vary. It is the outcome of that
application that decides how the run goes on. No field is validated: any
three fields decode as they stand. -/
theorem runInference_call_descriptor {σ Txn Res : Type} (sdk : Sdk σ Txn Res)
    (mnemonic : String) (w w1 : σ) (r : Request) (reqBody : RunInferenceReq)
    (signerAccount : Signer)
    (hm : r.Method = MethodPost)
    (hd : Decode r.Body = .ok reqBody)
    (hs : sdk.NewSignertWithMnemonic w mnemonic = (.ok signerAccount, w1)) :
    (runInference sdk mnemonic w r).calls[1]? =
      some (.constructCall "https://sui-devnet-endpoint.blockvision.org"
        { Signer := signerAccount.Address
          PackageObjectId :=
            "0x1a17fdd92c9d989f5200900302df4901d66fd04062a34eccbb83f085230838d7"
          Module := "Inference"
          Function := "run"
          TypeArguments := []
          Arguments := [.strings reqBody.In1, .strings reqBody.In2, .text reqBody.In3]
          Gas := some "0xfa6e9bf9f256f322330c56b8ad2b128c051f95d21e78482a64e8fd72eeea6bc2"
          GasBudget := "2000000000" }) ∧
    (∀ (xs ys : List String) (s : String),
      Decode (fieldsBody xs ys s) = .ok { In1 := .ofList xs, In2 := .ofList ys, In3 := s }) ∧
    (∀ (err : String) (w2 : σ),
      sdk.MoveCall w1 "https://sui-devnet-endpoint.blockvision.org"
        { Signer := signerAccount.Address
          PackageObjectId :=
            "0x1a17fdd92c9d989f5200900302df4901d66fd04062a34eccbb83f085230838d7"
          Module := "Inference"
          Function := "run"
          TypeArguments := []
          Arguments := [.strings reqBody.In1, .strings reqBody.In2, .text reqBody.In3]
          Gas := some "0xfa6e9bf9f256f322330c56b8ad2b128c051f95d21e78482a64e8fd72eeea6bc2"
          GasBudget := "2000000000" } = (.error err, w2) →
      (runInference sdk mnemonic w r).response
        = httpError ("MoveCall error: " ++ err) StatusInternalServerError ∧
      (runInference sdk mnemonic w r).calls.length = 2 ∧
      (runInference sdk mnemonic w r).world = w2) ∧
    (∀ (rsp : Txn) (w2 : σ),
      sdk.MoveCall w1 "https://sui-devnet-endpoint.blockvision.org"
        { Signer := signerAccount.Address
          PackageObjectId :=
            "0x1a17fdd92c9d989f5200900302df4901d66fd04062a34eccbb83f085230838d7"
          Module := "Inference"
          Function := "run"
          TypeArguments := []
          Arguments := [.strings reqBody.In1, .strings reqBody.In2, .text reqBody.In3]
          Gas := some "0xfa6e9bf9f256f322330c56b8ad2b128c051f95d21e78482a64e8fd72eeea6bc2"
          GasBudget := "2000000000" } = (.ok rsp, w2) →
      (runInference sdk mnemonic w r).calls[2]? =
        some (.signAndSubmit "https://sui-devnet-endpoint.blockvision.org"
          (executeRequest rsp signerAccount.PriKey)) ∧
      (runInference sdk mnemonic w r).world =
        (sdk.SignAndExecuteTransactionBlock w2 "https://sui-devnet-endpoint.blockvision.org"
          (executeRequest rsp signerAccount.PriKey)).2) := by
  refine ⟨?_, Decode_fieldsBody, ?_, ?_⟩
  · rcases hc : sdk.MoveCall w1 endpoint (moveCallRequest signerAccount reqBody)
      with ⟨err | rsp, w2⟩
    · rw [runInference_of_moveCall_error sdk mnemonic w w1 w2 r reqBody signerAccount err
        hm hd hs hc]
      rfl
    · rcases hx : sdk.SignAndExecuteTransactionBlock w2 endpoint
          (executeRequest rsp signerAccount.PriKey) with ⟨err | rsp2, w3⟩
      · rw [runInference_of_submit_error sdk mnemonic w w1 w2 w3 r reqBody signerAccount rsp
          err hm hd hs hc hx]
        rfl
      · rw [runInference_of_ok sdk mnemonic w w1 w2 w3 r reqBody signerAccount rsp rsp2
          hm hd hs hc hx]
        rfl
  · intro err w2 hc
    have hc2 : sdk.MoveCall w1 endpoint (moveCallRequest signerAccount reqBody)
        = (.error err, w2) := hc
    rw [runInference_of_moveCall_error sdk mnemonic w w1 w2 r reqBody signerAccount err
      hm hd hs hc2]
    exact ⟨rfl, rfl, rfl⟩
  · intro rsp w2 hc
    have hc2 : sdk.MoveCall w1 endpoint (moveCallRequest signerAccount reqBody)
        = (.ok rsp, w2) := hc
    rcases hx : sdk.SignAndExecuteTransactionBlock w2 endpoint
        (executeRequest rsp signerAccount.PriKey) with ⟨err | rsp2, w3⟩
    · rw [runInference_of_submit_error sdk mnemonic w w1 w2 w3 r reqBody signerAccount rsp
        err hm hd hs hc2 hx]
      refine ⟨rfl, ?_⟩
      show w3 = (sdk.SignAndExecuteTransactionBlock w2 endpoint
        (executeRequest rsp signerAccount.PriKey)).2
      rw [hx]
    · rw [runInference_of_ok sdk mnemonic w w1 w2 w3 r reqBody signerAccount rsp rsp2
        hm hd hs hc2 hx]
      refine ⟨rfl, ?_⟩
      show w3 = (sdk.SignAndExecuteTransactionBlock w2 endpoint
        (executeRequest rsp signerAccount.PriKey)).2
      rw [hx]

/-- The claim C8 at a request whose fields are neither numbers nor of equal
length, with a stub whose call construction accepts the written-out
descriptor and refuses every other: the transaction it returns reaches
sign-and-submit, and the stub has recorded three operations. -/
theorem runInference_call_descriptor_witness :
    (runInference (strictSdk shapelessDescriptor sampleSubmission) "words" 0
        shapelessPost).calls[1]? =
      some (.constructCall "https://sui-devnet-endpoint.blockvision.org"
        shapelessDescriptor) ∧
    (runInference (strictSdk shapelessDescriptor sampleSubmission) "words" 0
        shapelessPost).calls[2]? =
      some (.signAndSubmit "https://sui-devnet-endpoint.blockvision.org"
        (executeRequest "tx" sampleSigner.PriKey)) ∧
    (runInference (strictSdk shapelessDescriptor sampleSubmission) "words" 0
        shapelessPost).world = 3 :=
  ⟨(runInference_call_descriptor (strictSdk shapelessDescriptor sampleSubmission) "words"
      0 1 shapelessPost
      { In1 := .ofList ["not a number", ""], In2 := .ofList [], In3 := "x y" }
      sampleSigner rfl rfl rfl).1,
   (runInference_call_descriptor (strictSdk shapelessDescriptor sampleSubmission) "words"
      0 1 shapelessPost
      { In1 := .ofList ["not a number", ""], In2 := .ofList [], In3 := "x y" }
      sampleSigner rfl rfl rfl).2.2.2 "tx" 2 rfl⟩

/-- Claim C10. When a POST to `/run` reaches submission, the call descriptor
that was constructed carries the address of the account derived from the
configured mnemonic, and sign-and-submit is applied to exactly the
transaction call construction returned, the private key of that same account,
and the request type `WaitForLocalExecution`: the outcome of that application
is the outcome of the run. -/
theorem runInference_submission {σ Txn Res : Type} (sdk : Sdk σ Txn Res)
    (mnemonic : String) (w w1 w2 : σ) (r : Request) (reqBody : RunInferenceReq)
    (signerAccount : Signer) (rsp : Txn)
    (hm : r.Method = MethodPost)
    (hd : Decode r.Body = .ok reqBody)
    (hs : sdk.NewSignertWithMnemonic w mnemonic = (.ok signerAccount, w1))
    (hc : sdk.MoveCall w1 endpoint
      { Signer := signerAccount.Address
        PackageObjectId := "0x1a17fdd92c9d989f5200900302df4901d66fd04062a34eccbb83f085230838d7"
        Module := "Inference"
        Function := "run"
        TypeArguments := []
        Arguments := [.strings reqBody.In1, .strings reqBody.In2, .text reqBody.In3]
        Gas := some "0xfa6e9bf9f256f322330c56b8ad2b128c051f95d21e78482a64e8fd72eeea6bc2"
        GasBudget := "2000000000" } = (.ok rsp, w2)) :
    (runInference sdk mnemonic w r).calls =
      [.deriveSigner mnemonic,
       .constructCall endpoint
         { Signer := signerAccount.Address
           PackageObjectId :=
             "0x1a17fdd92c9d989f5200900302df4901d66fd04062a34eccbb83f085230838d7"
           Module := "Inference"
           Function := "run"
           TypeArguments := []
           Arguments := [.strings reqBody.In1, .strings reqBody.In2, .text reqBody.In3]
           Gas := some "0xfa6e9bf9f256f322330c56b8ad2b128c051f95d21e78482a64e8fd72eeea6bc2"
           GasBudget := "2000000000" },
       .signAndSubmit endpoint
         { TxnMetaData := rsp
           PriKey := signerAccount.PriKey
           Options := { ShowInput := true, ShowRawInput := true, ShowEffects := true }
           RequestType := "WaitForLocalExecution" }] ∧
    (runInference sdk mnemonic w r).world =
      (sdk.SignAndExecuteTransactionBlock w2 endpoint
        { TxnMetaData := rsp
          PriKey := signerAccount.PriKey
          Options := { ShowInput := true, ShowRawInput := true, ShowEffects := true }
          RequestType := "WaitForLocalExecution" }).2 ∧
    (∀ err : String,
      (sdk.SignAndExecuteTransactionBlock w2 endpoint
        { TxnMetaData := rsp
          PriKey := signerAccount.PriKey
          Options := { ShowInput := true, ShowRawInput := true, ShowEffects := true }
          RequestType := "WaitForLocalExecution" }).1 = .error err →
      (runInference sdk mnemonic w r).response
        = httpError ("Transaction execution error: " ++ err) StatusInternalServerError) ∧
    (∀ rsp2 : Res,
      (sdk.SignAndExecuteTransactionBlock w2 endpoint
        { TxnMetaData := rsp
          PriKey := signerAccount.PriKey
          Options := { ShowInput := true, ShowRawInput := true, ShowEffects := true }
          RequestType := "WaitForLocalExecution" }).1 = .ok rsp2 →
      (runInference sdk mnemonic w r).response.Status = 200 ∧
      (runInference sdk mnemonic w r).response.Body =
        encodeResponseBody sdk.marshal
          { Message := "Transaction executed successfully", Data := some rsp2, Error := "" } ∧
      (runInference sdk mnemonic w r).printed = some rsp2) := by
  have hc2 : sdk.MoveCall w1 endpoint (moveCallRequest signerAccount reqBody)
      = (.ok rsp, w2) := hc
  show _ ∧ _ = (sdk.SignAndExecuteTransactionBlock w2 endpoint
      (executeRequest rsp signerAccount.PriKey)).2 ∧
    (∀ err : String, (sdk.SignAndExecuteTransactionBlock w2 endpoint
      (executeRequest rsp signerAccount.PriKey)).1 = .error err → _) ∧
    (∀ rsp2 : Res, (sdk.SignAndExecuteTransactionBlock w2 endpoint
      (executeRequest rsp signerAccount.PriKey)).1 = .ok rsp2 → _)
  rcases hx : sdk.SignAndExecuteTransactionBlock w2 endpoint
      (executeRequest rsp signerAccount.PriKey) with ⟨err | rsp2, w3⟩
  · rw [runInference_of_submit_error sdk mnemonic w w1 w2 w3 r reqBody signerAccount rsp err
      hm hd hs hc2 hx]
    refine ⟨rfl, rfl, ?_, ?_⟩
    · intro err2 he
      cases he
      rfl
    · intro rsp2 he
      cases he
  · rw [runInference_of_ok sdk mnemonic w w1 w2 w3 r reqBody signerAccount rsp rsp2
      hm hd hs hc2 hx]
    refine ⟨rfl, rfl, ?_, ?_⟩
    · intro err he
      cases he
    · intro rsp3 he
      cases he
      exact ⟨rfl, rfl, rfl⟩

/-- The claim C10 with a stub whose sign-and-submit accepts the written-out
submission (the transaction `tx`, the sample account's private key, request
type `WaitForLocalExecution`) and refuses every other: the run ends in 200
with the canned result, and the stub has recorded three operations. -/
theorem runInference_submission_witness :
    (runInference (strictSdk (moveCallRequest sampleSigner sampleReq) sampleSubmission)
        "words" 0 samplePost).calls =
      [.deriveSigner "words",
       .constructCall endpoint
         { Signer := "0xa11ce"
           PackageObjectId :=
             "0x1a17fdd92c9d989f5200900302df4901d66fd04062a34eccbb83f085230838d7"
           Module := "Inference"
           Function := "run"
           TypeArguments := []
           Arguments := [.strings (.ofList ["1"]), .strings (.ofList ["2"]), .text "3"]
           Gas := some "0xfa6e9bf9f256f322330c56b8ad2b128c051f95d21e78482a64e8fd72eeea6bc2"
           GasBudget := "2000000000" },
       .signAndSubmit endpoint sampleSubmission] ∧
    (runInference (strictSdk (moveCallRequest sampleSigner sampleReq) sampleSubmission)
        "words" 0 samplePost).world = 3 ∧
    ((runInference (strictSdk (moveCallRequest sampleSigner sampleReq) sampleSubmission)
        "words" 0 samplePost).response.Status = 200 ∧
      (runInference (strictSdk (moveCallRequest sampleSigner sampleReq) sampleSubmission)
        "words" 0 samplePost).response.Body =
        encodeResponseBody encodeString
          { Message := "Transaction executed successfully", Data := some "canned",
            Error := "" } ∧
      (runInference (strictSdk (moveCallRequest sampleSigner sampleReq) sampleSubmission)
        "words" 0 samplePost).printed = some "canned") :=
  ⟨(runInference_submission (strictSdk (moveCallRequest sampleSigner sampleReq)
      sampleSubmission) "words" 0 1 2 samplePost sampleReq sampleSigner "tx"
      rfl rfl rfl rfl).1,
   (runInference_submission (strictSdk (moveCallRequest sampleSigner sampleReq)
      sampleSubmission) "words" 0 1 2 samplePost sampleReq sampleSigner "tx"
      rfl rfl rfl rfl).2.1,
   (runInference_submission (strictSdk (moveCallRequest sampleSigner sampleReq)
      sampleSubmission) "words" 0 1 2 samplePost sampleReq sampleSigner "tx"
      rfl rfl rfl rfl).2.2.2 "canned" rfl⟩

/-! ## The shape of a run -/

/-- Claim C9. In every run of `/run`, whatever the request and however the SDK
behaves, the SDK operations performed are an initial part of derive-signer,
construct-call, sign-and-submit: each at most once, in that order, a later one
only after the earlier one succeeded; and the run ends in one response, whose
status is 405 or 400 when nothing was invoked, 500 at each of the three error
exits, and 200 at the end. -/
theorem runInference_linear {σ Txn Res : Type} (sdk : Sdk σ Txn Res) (mnemonic : String)
    (w : σ) (r : Request) :
    ((runInference sdk mnemonic w r).calls.map Call.kind
      <+: [.deriveSigner, .constructCall, .signAndSubmit]) ∧
    ((runInference sdk mnemonic w r).calls.map Call.kind).Nodup ∧
    (((runInference sdk mnemonic w r).calls = [] ∧
        (runInference sdk mnemonic w r).world = w ∧
        ((runInference sdk mnemonic w r).response.Status = 405 ∨
          (runInference sdk mnemonic w r).response.Status = 400)) ∨
     (∃ err,
        (sdk.NewSignertWithMnemonic w mnemonic).1 = .error err ∧
        (runInference sdk mnemonic w r).calls = [.deriveSigner mnemonic] ∧
        (runInference sdk mnemonic w r).response.Status = 500) ∨
     (∃ signerAccount reqBody err,
        (sdk.NewSignertWithMnemonic w mnemonic).1 = .ok signerAccount ∧
        (sdk.MoveCall (sdk.NewSignertWithMnemonic w mnemonic).2 endpoint
          (moveCallRequest signerAccount reqBody)).1 = .error err ∧
        (runInference sdk mnemonic w r).calls =
          [.deriveSigner mnemonic,
           .constructCall endpoint (moveCallRequest signerAccount reqBody)] ∧
        (runInference sdk mnemonic w r).response.Status = 500) ∨
     (∃ signerAccount reqBody rsp,
        (sdk.NewSignertWithMnemonic w mnemonic).1 = .ok signerAccount ∧
        (sdk.MoveCall (sdk.NewSignertWithMnemonic w mnemonic).2 endpoint
          (moveCallRequest signerAccount reqBody)).1 = .ok rsp ∧
        (runInference sdk mnemonic w r).calls =
          [.deriveSigner mnemonic,
           .constructCall endpoint (moveCallRequest signerAccount reqBody),
           .signAndSubmit endpoint (executeRequest rsp signerAccount.PriKey)] ∧
        ((runInference sdk mnemonic w r).response.Status = 500 ∨
          (runInference sdk mnemonic w r).response.Status = 200))) := by
  by_cases hm : r.Method = MethodPost
  · rcases hd : Decode r.Body with e | reqBody
    · rw [runInference_of_decode_error sdk mnemonic w r e hm hd]
      exact ⟨⟨_, rfl⟩, List.nodup_nil, Or.inl ⟨rfl, rfl, Or.inr rfl⟩⟩
    · rcases hs : sdk.NewSignertWithMnemonic w mnemonic with ⟨err | signerAccount, w1⟩
      · rw [runInference_of_signer_error sdk mnemonic w w1 r reqBody err hm hd hs]
        exact ⟨⟨[.constructCall, .signAndSubmit], rfl⟩, by simp [Call.kind],
          Or.inr (Or.inl ⟨err, rfl, rfl, rfl⟩)⟩
      · rcases hc : sdk.MoveCall w1 endpoint (moveCallRequest signerAccount reqBody)
          with ⟨err | rsp, w2⟩
        · rw [runInference_of_moveCall_error sdk mnemonic w w1 w2 r reqBody signerAccount err
            hm hd hs hc]
          exact ⟨⟨[.signAndSubmit], rfl⟩, by simp [Call.kind],
            Or.inr (Or.inr (Or.inl ⟨signerAccount, reqBody, err, rfl, by rw [hc], rfl, rfl⟩))⟩
        · rcases hx : sdk.SignAndExecuteTransactionBlock w2 endpoint
            (executeRequest rsp signerAccount.PriKey) with ⟨err | rsp2, w3⟩
          · rw [runInference_of_submit_error sdk mnemonic w w1 w2 w3 r reqBody signerAccount
              rsp err hm hd hs hc hx]
            exact ⟨⟨[], rfl⟩, by simp [Call.kind],
              Or.inr (Or.inr (Or.inr
                ⟨signerAccount, reqBody, rsp, rfl, by rw [hc], rfl, Or.inl rfl⟩))⟩
          · rw [runInference_of_ok sdk mnemonic w w1 w2 w3 r reqBody signerAccount
              rsp rsp2 hm hd hs hc hx]
            exact ⟨⟨[], rfl⟩, by simp [Call.kind],
              Or.inr (Or.inr (Or.inr
                ⟨signerAccount, reqBody, rsp, rfl, by rw [hc], rfl, Or.inr rfl⟩))⟩
  · rw [runInference_of_not_post sdk mnemonic w r hm]
    exact ⟨⟨_, rfl⟩, List.nodup_nil, Or.inl ⟨rfl, rfl, Or.inl rfl⟩⟩

end SuiSdk
